import Mathlib

/-! Shallow embedding of the Express spots router (routes/api/spots.js) of the
vacation-rental listing service, together with the slice of the data store it
manipulates.  JavaScript request-body values are modelled by `Val`; the data
store visible to the router is `DB`; each route is a Lean function from the
store and the request data to a result and the store after the call.
JavaScript NaN (the result of the unguarded 0/0 in the spot-details route) is
modelled as `none : Option ℚ`. -/

/-- A JavaScript value as it can appear in a JSON request-body field.
`undef` stands for an absent field.  Numbers are modelled as rationals. -/
inductive Val where
  | undef
  | nullV
  | boolV (b : Bool)
  | num (q : ℚ)
  | str (s : String)
deriving DecidableEq, Repr

/-- JavaScript truthiness: `exists(\x7bcheckFalsy: true\x7d)` accepts exactly
the truthy values. -/
def truthy : Val → Bool
  | .undef => false
  | .nullV => false
  | .boolV b => b
  | .num q => decide (q ≠ 0)
  | .str s => decide (s ≠ "")

/-- Length of a JavaScript value: only strings have a numeric `length` member. -/
def jsLength : Val → Option Nat
  | .str s => some s.length
  | _ => none

/-- The custom check of the `name` chain: `value.length < 50`.  On a value
without a length the comparison is with `undefined` and is false (and on
`undefined` itself the member access throws), so the validator fails. -/
def nameLenOk (v : Val) : Bool :=
  match jsLength v with
  | some l => decide (l < 50)
  | none => false

/-- The custom check of the `stars` chain:
`Number.isInteger(value) && value > 0 && value < 6`. -/
def starsRangeOk : Val → Bool
  | .num q => q.den == 1 && decide (0 < q) && decide (q < 6)
  | _ => false

/-- Request body of POST /spots and PUT /spots/:spotId (the PUT route never
reads `previewImage`, an absent field is `Val.undef`). -/
structure SpotBody where
  (address city state country lat lng name description price previewImage : Val)
deriving DecidableEq, Repr

/-- Request body of POST /spots/:spotId/reviews. -/
structure ReviewBody where
  (review stars : Val)
deriving DecidableEq, Repr

/-- Run one express-validator chain on one field value: every validator of the
chain runs and each failing one contributes its message. -/
def chainErrors (v : Val) (checks : List ((Val → Bool) × String)) : List String :=
  checks.filterMap fun c => if c.1 v then none else some c.2

/-- The `name` chain: `exists(\x7bcheckFalsy: true\x7d)` (default message) then
the custom length check with its `withMessage`. -/
def nameChecks : List ((Val → Bool) × String) :=
  [(truthy, "Invalid value"), (nameLenOk, "Name must be less than 50 characters")]

/-- The `stars` chain: `exists(\x7bcheckFalsy: true\x7d)` (default message) then
the custom integer-range check with its `withMessage`. -/
def starsChecks : List ((Val → Bool) × String) :=
  [(truthy, "Invalid value"), (starsRangeOk, "Stars must be an integer from 1 to 5")]

/-- The spot-creation rule set: ten required fields, `name` also length-checked. -/
def validateSpotCreation (b : SpotBody) : List String :=
  chainErrors b.address [(truthy, "Street address is required")] ++
  chainErrors b.city [(truthy, "City is required")] ++
  chainErrors b.state [(truthy, "State is required")] ++
  chainErrors b.country [(truthy, "Country is required")] ++
  chainErrors b.lat [(truthy, "Latitude is not valid")] ++
  chainErrors b.lng [(truthy, "Longitude is not valid")] ++
  chainErrors b.name nameChecks ++
  chainErrors b.description [(truthy, "Description is required")] ++
  chainErrors b.price [(truthy, "Price per day is required")] ++
  chainErrors b.previewImage [(truthy, "Preview image url is required")]

/-- The spot-edit rule set: the same chains as creation without `previewImage`. -/
def validateSpotEdit (b : SpotBody) : List String :=
  chainErrors b.address [(truthy, "Street address is required")] ++
  chainErrors b.city [(truthy, "City is required")] ++
  chainErrors b.state [(truthy, "State is required")] ++
  chainErrors b.country [(truthy, "Country is required")] ++
  chainErrors b.lat [(truthy, "Latitude is not valid")] ++
  chainErrors b.lng [(truthy, "Longitude is not valid")] ++
  chainErrors b.name nameChecks ++
  chainErrors b.description [(truthy, "Description is required")] ++
  chainErrors b.price [(truthy, "Price per day is required")]

/-- The review-creation rule set: `review` required, `stars` required and
integer-range checked. -/
def validateReviewCreation (b : ReviewBody) : List String :=
  chainErrors b.review [(truthy, "Review text is required")] ++
  chainErrors b.stars starsChecks

/-- A stored Spot row. -/
structure Spot where
  (id ownerId : Nat)
  (address city state country lat lng name description price previewImage : Val)
  (createdAt updatedAt : Nat)
deriving DecidableEq, Repr

/-- A stored Review row; the `stars` column is numeric. -/
structure Review where
  (id userId spotId : Nat)
  (review : Val)
  (stars : ℚ)
deriving DecidableEq, Repr

/-- A stored Image row (polymorphic attachment). -/
structure Image where
  (id imageableId : Nat)
  (imageableType url : String)
deriving DecidableEq, Repr

/-- The slice of the data store the router touches, plus id counters for the
auto-increment primary keys. -/
structure DB where
  spots : List Spot
  reviews : List Review
  images : List Image
  nextSpotId : Nat
  nextReviewId : Nat
deriving DecidableEq, Repr

/-- A thrown request error: status code, message, and (for validation
failures) the collected field messages. -/
structure Err where
  status : Nat
  message : String
  errors : List String
deriving DecidableEq, Repr

/-- The 404 raised as `new Error("Spot couldn\x27t be found")` with status 404. -/
def notFoundSpot : Err := ⟨404, "Spot couldn\x27t be found", []⟩

/-- The 403 raised when the user already has a review for the spot. -/
def forbiddenDuplicate : Err := ⟨403, "User already has a review for this spot", []⟩

/-- The rejection produced by `handleValidationErrors` when a rule set fails. -/
def validationFailed (errs : List String) : Err := ⟨400, "Validation error", errs⟩

/-- Numeric content of a body value, as stored into a numeric column. -/
def valNum : Val → ℚ
  | .num q => q
  | _ => 0

/-- SQL `SUM(stars)` over the reviews of a spot: `NULL` (here `none`) over the
empty set, otherwise the sum. -/
def sumOfStars (revs : List Review) : Option ℚ :=
  if revs = [] then none else some ((revs.map (·.stars)).sum)

/-- JavaScript division `a / b` where `a` may be SQL `NULL` (coerced to 0 by
`ToNumber`): when `b = 0` the result is not a finite number (0/0 is NaN),
modelled as `none`; otherwise the rational quotient. -/
def jsDivNullNum (a : Option ℚ) (b : ℚ) : Option ℚ :=
  if b = 0 then none else some (a.getD 0 / b)

/-- JavaScript `toFixed(1)`: NaN stays NaN; a finite number is rounded to one
decimal, ties away from zero toward the larger candidate, i.e. Mathlib `round`
of ten times the value, divided by ten. -/
def jsToFixed1 : Option ℚ → Option ℚ
  | none => none
  | some q => some ((round (10 * q) : ℤ) / 10)

/-- Response body of GET /spots/:id: the found spot with the two computed
aggregate fields attached. -/
structure SpotDetails where
  spot : Spot
  numReviews : Nat
  avgStarRating : Option ℚ
deriving DecidableEq, Repr

/-- GET /spots/:id — load the spot, 404 when absent, then attach
`numReviews` (COUNT) and `avgStarRating` (SUM divided by COUNT, `toFixed(1)`). -/
def getSpotById (db : DB) (spotId : Nat) : Except Err SpotDetails :=
  match db.spots.find? (fun s => s.id == spotId) with
  | none => .error notFoundSpot
  | some spot =>
    let revs := db.reviews.filter (fun r => r.spotId == spotId)
    let reviewCount := revs.length
    let ratingSum := sumOfStars revs
    let avgStarRating := jsToFixed1 (jsDivNullNum ratingSum (reviewCount : ℚ))
    .ok ⟨spot, reviewCount, avgStarRating⟩

/-- The record built by `Spot.create` in POST /spots: `ownerId` from the
authenticated user, the ten listing fields from the body, fresh id and
timestamps. -/
def createSpotRecord (db : DB) (userId now : Nat) (b : SpotBody) : Spot :=
  { id := db.nextSpotId, ownerId := userId,
    address := b.address, city := b.city, state := b.state,
    country := b.country, lat := b.lat, lng := b.lng, name := b.name,
    description := b.description, price := b.price,
    previewImage := b.previewImage, createdAt := now, updatedAt := now }

/-- POST /spots — the creation rule set, then `Spot.create` and a 200 response
with the created record. -/
def postSpot (db : DB) (userId now : Nat) (b : SpotBody) :
    (Except Err (Nat × Spot)) × DB :=
  match validateSpotCreation b with
  | e :: es => (.error (validationFailed (e :: es)), db)
  | [] =>
    let spot := createSpotRecord db userId now b
    (.ok (200, spot),
     { db with spots := db.spots ++ [spot], nextSpotId := db.nextSpotId + 1 })

/-- PUT /spots/:spotId — the edit rule set, then load the spot; 404 when the
spot is absent or when `spot.id !== req.user.id` (the check as written in the
source); otherwise update the nine edit fields and respond 200. -/
def putSpot (db : DB) (userId spotId now : Nat) (b : SpotBody) :
    (Except Err (Nat × Spot)) × DB :=
  match validateSpotEdit b with
  | e :: es => (.error (validationFailed (e :: es)), db)
  | [] =>
    match db.spots.find? (fun s => s.id == spotId) with
    | none => (.error notFoundSpot, db)
    | some spot =>
      if spot.id != userId then (.error notFoundSpot, db)
      else
        let updated := { spot with
          address := b.address, city := b.city, state := b.state,
          country := b.country, lat := b.lat, lng := b.lng, name := b.name,
          description := b.description, price := b.price, updatedAt := now }
        (.ok (200, updated),
         { db with spots := db.spots.map (fun s => if s.id == spotId then updated else s) })

/-- Response body of DELETE /spots/:spotId. -/
structure DeleteBody where
  message : String
  statusCode : Nat
deriving DecidableEq, Repr

/-- DELETE /spots/:spotId — load the spot; 404 when the spot is absent or when
`spot.id !== req.user.id` (the check as written in the source); otherwise
`Spot.destroy` on that id and a 200 response. -/
def deleteSpotRoute (db : DB) (userId spotId : Nat) :
    (Except Err (Nat × DeleteBody)) × DB :=
  match db.spots.find? (fun s => s.id == spotId) with
  | none => (.error notFoundSpot, db)
  | some spot =>
    if spot.id != userId then (.error notFoundSpot, db)
    else
      (.ok (200, ⟨"Successfully deleted", 200⟩),
       { db with spots := db.spots.filter (fun s => !(s.id == spotId)) })

/-- POST /spots/:spotId/reviews — the review rule set, then: 404 when the spot
is absent; 403 when the user already has a review for the spot; otherwise
`Review.create` for this user and spot and a 200 response. -/
def postReview (db : DB) (userId spotId : Nat) (b : ReviewBody) :
    (Except Err (Nat × Review)) × DB :=
  match validateReviewCreation b with
  | e :: es => (.error (validationFailed (e :: es)), db)
  | [] =>
    match db.spots.find? (fun s => s.id == spotId) with
    | none => (.error notFoundSpot, db)
    | some spot =>
      match db.reviews.find? (fun r => r.userId == userId && r.spotId == spot.id) with
      | some _ => (.error forbiddenDuplicate, db)
      | none =>
        let r : Review := { id := db.nextReviewId, userId := userId,
                            spotId := spotId, review := b.review,
                            stars := valNum b.stars }
        (.ok (200, r),
         { db with reviews := db.reviews ++ [r], nextReviewId := db.nextReviewId + 1 })

/-- At most one review per (userId, spotId) pair in the store. -/
def atMostOnePerPair (db : DB) : Prop :=
  ∀ r1 ∈ db.reviews, ∀ r2 ∈ db.reviews,
    r1.userId = r2.userId → r1.spotId = r2.spotId → r1 = r2

/-! Concrete sample data used by the closed theorems below. -/

/-- A spot whose own id (1) differs from its owner id (2). -/
def spotA : Spot :=
  { id := 1, ownerId := 2, address := .str "123 Main St", city := .str "Mesa",
    state := .str "AZ", country := .str "USA", lat := .num 33, lng := .num 111,
    name := .str "Casa", description := .str "A house", price := .num 100,
    previewImage := .str "http://img", createdAt := 0, updatedAt := 0 }

/-- A store holding only `spotA` and no reviews. -/
def dbA : DB :=
  { spots := [spotA], reviews := [], images := [], nextSpotId := 2, nextReviewId := 1 }

/-- A body passing the edit rule set, with `previewImage` absent. -/
def editBodyA : SpotBody :=
  { address := .str "456 Oak St", city := .str "Tempe", state := .str "AZ",
    country := .str "USA", lat := .num 34, lng := .num 112, name := .str "Villa",
    description := .str "Another house", price := .num 200, previewImage := .undef }

/-- A body passing the creation rule set. -/
def createBodyA : SpotBody :=
  { address := .str "9 Pine St", city := .str "Phoenix", state := .str "AZ",
    country := .str "USA", lat := .num 1, lng := .num 2, name := .str "Hut",
    description := .str "Tiny", price := .num 50, previewImage := .str "http://p" }

/-- Claim C1: the claim says PUT and DELETE on /spots/:spotId reject with 404
whenever the spot is missing or its `ownerId` differs from the requesting
user's id, so that only the owner can mutate or delete.  The code instead
compares `spot.id` to `req.user.id`: on `spotA` (id 1, ownerId 2) user 1 — not
the owner — deletes and updates the spot successfully, while user 2 — the
owner — receives 404 from both routes with the store unchanged. -/
theorem c1_put_delete_ownership_defect :
    spotA.id = 1 ∧ spotA.ownerId = 2 ∧
    (deleteSpotRoute dbA 1 1).1 = .ok (200, ⟨"Successfully deleted", 200⟩) ∧
    (deleteSpotRoute dbA 1 1).2.spots = [] ∧
    deleteSpotRoute dbA 2 1 = (.error notFoundSpot, dbA) ∧
    putSpot dbA 2 1 7 editBodyA = (.error notFoundSpot, dbA) ∧
    (putSpot dbA 1 1 7 editBodyA).1 =
      .ok (200, { spotA with
        address := editBodyA.address, city := editBodyA.city,
        state := editBodyA.state, country := editBodyA.country,
        lat := editBodyA.lat, lng := editBodyA.lng, name := editBodyA.name,
        description := editBodyA.description, price := editBodyA.price,
        updatedAt := 7 }) :=
  ⟨rfl, rfl, rfl, rfl, rfl, rfl, rfl⟩

/-- Claim C7: for every authenticated POST /spots whose payload passes the
creation rule set, the created record's `ownerId` is the authenticated user's
id, its ten listing fields equal the body fields, and the route answers 200
with the created record appended to the store. -/
theorem c7_create_spot (db : DB) (u now : Nat) (b : SpotBody)
    (hv : validateSpotCreation b = []) :
    postSpot db u now b =
      (.ok (200, createSpotRecord db u now b),
       { db with spots := db.spots ++ [createSpotRecord db u now b],
                 nextSpotId := db.nextSpotId + 1 }) ∧
    (createSpotRecord db u now b).ownerId = u ∧
    (createSpotRecord db u now b).address = b.address ∧
    (createSpotRecord db u now b).city = b.city ∧
    (createSpotRecord db u now b).state = b.state ∧
    (createSpotRecord db u now b).country = b.country ∧
    (createSpotRecord db u now b).lat = b.lat ∧
    (createSpotRecord db u now b).lng = b.lng ∧
    (createSpotRecord db u now b).name = b.name ∧
    (createSpotRecord db u now b).description = b.description ∧
    (createSpotRecord db u now b).price = b.price ∧
    (createSpotRecord db u now b).previewImage = b.previewImage := by
  unfold postSpot
  rw [hv]
  exact ⟨rfl, rfl, rfl, rfl, rfl, rfl, rfl, rfl, rfl, rfl, rfl, rfl⟩

/-- Witness for C7 at a concrete valid payload. -/
theorem c7_create_spot_witness :
    (postSpot dbA 9 3 createBodyA).1 = .ok (200, createSpotRecord dbA 9 3 createBodyA) ∧
    (createSpotRecord dbA 9 3 createBodyA).ownerId = 9 := by
  have h := c7_create_spot dbA 9 3 createBodyA rfl
  exact ⟨congrArg Prod.fst h.1, h.2.1⟩

/-- Claim C4: a spot that exists but has zero reviews is reported with
`numReviews = 0` and an `avgStarRating` that is the NaN produced by the
unguarded 0/0 division (modelled `none`), not a special-cased null or 0. -/
theorem c4_zero_reviews_nan (db : DB) (sid : Nat) (spot : Spot)
    (hf : db.spots.find? (fun s => s.id == sid) = some spot)
    (hempty : db.reviews.filter (fun r => r.spotId == sid) = []) :
    getSpotById db sid = .ok { spot := spot, numReviews := 0, avgStarRating := none } := by
  unfold getSpotById
  rw [hf, hempty]
  rfl

/-- Witness for C4: `spotA` exists in `dbA` and has no reviews. -/
theorem c4_zero_reviews_nan_witness :
    getSpotById dbA 1 = .ok { spot := spotA, numReviews := 0, avgStarRating := none } :=
  c4_zero_reviews_nan dbA 1 spotA rfl rfl

/-- Two reviews of spot 1, with 5 and 4 stars. -/
def reviewB1 : Review := { id := 1, userId := 7, spotId := 1, review := .str "Great", stars := 5 }

/-- Second sample review of spot 1. -/
def reviewB2 : Review := { id := 2, userId := 8, spotId := 1, review := .str "Good", stars := 4 }

/-- A store holding `spotA` and its two reviews. -/
def dbB : DB :=
  { spots := [spotA], reviews := [reviewB1, reviewB2], images := [],
    nextSpotId := 2, nextReviewId := 3 }

/-- Claim C3: for an existing spot with N > 0 reviews, GET /spots/:id reports
`numReviews = N` and `avgStarRating` equal to the mean of the star values
rounded to one decimal place (`round` of ten times the mean, divided by ten). -/
theorem c3_avg_rating (db : DB) (sid : Nat) (spot : Spot)
    (hf : db.spots.find? (fun s => s.id == sid) = some spot)
    (hne : db.reviews.filter (fun r => r.spotId == sid) ≠ []) :
    getSpotById db sid = .ok
      { spot := spot,
        numReviews := (db.reviews.filter (fun r => r.spotId == sid)).length,
        avgStarRating := some
          (((round ((10 : ℚ) *
            (((db.reviews.filter (fun r => r.spotId == sid)).map (·.stars)).sum /
             ((db.reviews.filter (fun r => r.spotId == sid)).length : ℚ)))) : ℤ) / 10) } := by
  unfold getSpotById
  rw [hf]
  have h2 : ((db.reviews.filter (fun r => r.spotId == sid)).length : ℚ) ≠ 0 := by
    simpa [Nat.cast_eq_zero, List.length_eq_zero] using hne
  dsimp only
  unfold sumOfStars jsDivNullNum jsToFixed1
  rw [if_neg hne, if_neg h2]
  simp

/-- Witness for C3: `spotA` in `dbB` has two reviews with 5 and 4 stars; the
reported average is 4.5. -/
theorem c3_avg_rating_witness :
    getSpotById dbB 1 = .ok
      { spot := spotA,
        numReviews := (dbB.reviews.filter (fun r => r.spotId == 1)).length,
        avgStarRating := some
          (((round ((10 : ℚ) *
            (((dbB.reviews.filter (fun r => r.spotId == 1)).map (·.stars)).sum /
             ((dbB.reviews.filter (fun r => r.spotId == 1)).length : ℚ)))) : ℤ) / 10) } :=
  c3_avg_rating dbB 1 spotA rfl (by decide)

/-- Case split of POST /spots/:spotId/reviews: every thrown error returns the
store unchanged, and the only success appends a single new review. -/
theorem postReview_shape (db : DB) (u sid : Nat) (b : ReviewBody) :
    ((∃ e, (postReview db u sid b).1 = .error e) ∧ (postReview db u sid b).2 = db) ∨
    (∃ r, postReview db u sid b =
      (.ok (200, r),
       { db with reviews := db.reviews ++ [r], nextReviewId := db.nextReviewId + 1 })) := by
  unfold postReview
  split
  · exact .inl ⟨⟨_, rfl⟩, rfl⟩
  · split
    · exact .inl ⟨⟨_, rfl⟩, rfl⟩
    · split
      · exact .inl ⟨⟨_, rfl⟩, rfl⟩
      · exact .inr ⟨_, rfl⟩

/-- Claim C9: whenever POST /spots/:spotId/reviews fails — in particular with
404 for a missing spot or 403 for a duplicate review — the data store is
returned unchanged: no review is created and none is modified. -/
theorem c9_failed_review_frame (db : DB) (u sid : Nat) (b : ReviewBody) (e : Err)
    (h : (postReview db u sid b).1 = .error e) :
    (postReview db u sid b).2 = db := by
  rcases postReview_shape db u sid b with ⟨-, h2⟩ | ⟨r, h2⟩
  · exact h2
  · rw [h2] at h; simp at h

/-- Witness for C9: creating a review for the missing spot 99 fails with 404
and leaves `dbA` unchanged. -/
theorem c9_failed_review_frame_witness :
    (postReview dbA 7 99 { review := .str "Nice", stars := .num 5 }).2 = dbA :=
  c9_failed_review_frame dbA 7 99 { review := .str "Nice", stars := .num 5 }
    notFoundSpot rfl

/-- Case split of DELETE /spots/:spotId: every thrown error returns the store
unchanged; the only success filters the spot list by the requested id. -/
theorem deleteSpot_shape (db : DB) (u sid : Nat) :
    ((∃ e, (deleteSpotRoute db u sid).1 = .error e) ∧ (deleteSpotRoute db u sid).2 = db) ∨
    ((deleteSpotRoute db u sid).1 = .ok (200, ⟨"Successfully deleted", 200⟩) ∧
     (deleteSpotRoute db u sid).2 =
       { db with spots := db.spots.filter (fun s => !(s.id == sid)) }) := by
  unfold deleteSpotRoute
  split
  · exact .inl ⟨⟨_, rfl⟩, rfl⟩
  · split
    · exact .inl ⟨⟨_, rfl⟩, rfl⟩
    · exact .inr ⟨rfl, rfl⟩

/-- Claim C10: a successful DELETE /spots/:spotId removes exactly the spots
whose id is spotId and leaves every other spot and all review and image
records untouched. -/
theorem c10_delete_frame (db : DB) (u sid : Nat)
    (h : (deleteSpotRoute db u sid).1.isOk = true) :
    (deleteSpotRoute db u sid).2.spots = db.spots.filter (fun s => !(s.id == sid)) ∧
    (∀ s : Spot, s ∈ (deleteSpotRoute db u sid).2.spots ↔ (s ∈ db.spots ∧ s.id ≠ sid)) ∧
    (deleteSpotRoute db u sid).2.reviews = db.reviews ∧
    (deleteSpotRoute db u sid).2.images = db.images := by
  rcases deleteSpot_shape db u sid with ⟨⟨e, he⟩, -⟩ | ⟨-, h2⟩
  · rw [he] at h; simp [Except.isOk, Except.toBool] at h
  · rw [h2]
    refine ⟨rfl, ?_, rfl, rfl⟩
    intro s
    simp [List.mem_filter]

/-- Witness for C10: user 1 deletes spot 1 from `dbA` (the route's own check
admits that user); the spot list empties, reviews and images stay. -/
theorem c10_delete_frame_witness :
    (deleteSpotRoute dbA 1 1).2.spots = dbA.spots.filter (fun s => !(s.id == 1)) ∧
    (∀ s : Spot, s ∈ (deleteSpotRoute dbA 1 1).2.spots ↔ (s ∈ dbA.spots ∧ s.id ≠ 1)) ∧
    (deleteSpotRoute dbA 1 1).2.reviews = dbA.reviews ∧
    (deleteSpotRoute dbA 1 1).2.images = dbA.images :=
  c10_delete_frame dbA 1 1 rfl

/-- A failing validator of a chain contributes its message. -/
theorem mem_chainErrors (v : Val) (checks : List ((Val → Bool) × String))
    (c : (Val → Bool) × String) (hc : c ∈ checks) (hfail : c.1 v = false) :
    c.2 ∈ chainErrors v checks := by
  unfold chainErrors
  rw [List.mem_filterMap]
  exact ⟨c, hc, by rw [hfail]; rfl⟩

/-- The stars custom check passes exactly on the rationals that are integers
strictly between 0 and 6. -/
theorem starsRangeOk_iff (v : Val) :
    starsRangeOk v = true ↔ ∃ n : ℤ, v = .num (n : ℚ) ∧ 0 < n ∧ n < 6 := by
  cases v with
  | num q =>
    simp only [starsRangeOk, Bool.and_eq_true, beq_iff_eq, decide_eq_true_eq]
    constructor
    · rintro ⟨⟨hden, hpos⟩, hlt⟩
      have hq : ((q.num : ℚ)) = q := (Rat.den_eq_one_iff q).mp hden
      refine ⟨q.num, by rw [hq], ?_, ?_⟩
      · exact_mod_cast hq ▸ hpos
      · exact_mod_cast hq ▸ hlt
    · rintro ⟨n, hn, h0, h6⟩
      injection hn with hq
      subst hq
      refine ⟨⟨Rat.den_intCast n, ?_⟩, ?_⟩
      · exact_mod_cast h0
      · exact_mod_cast h6
  | undef => simp [starsRangeOk]
  | nullV => simp [starsRangeOk]
  | boolV b => simp [starsRangeOk]
  | str s => simp [starsRangeOk]

/-- A failing rule set short-circuits POST /spots before the handler runs. -/
theorem postSpot_validation_error (db : DB) (u now : Nat) (b : SpotBody)
    (h : validateSpotCreation b ≠ []) :
    postSpot db u now b = (.error (validationFailed (validateSpotCreation b)), db) := by
  unfold postSpot
  cases hv : validateSpotCreation b with
  | nil => exact absurd hv h
  | cons x xs => rfl

/-- A failing rule set short-circuits POST /spots/:spotId/reviews before the
handler runs. -/
theorem postReview_validation_error (db : DB) (u sid : Nat) (b : ReviewBody)
    (h : validateReviewCreation b ≠ []) :
    postReview db u sid b = (.error (validationFailed (validateReviewCreation b)), db) := by
  unfold postReview
  cases hv : validateReviewCreation b with
  | nil => exact absurd hv h
  | cons x xs => rfl

/-- Claim C5: a POST /spots/:spotId/reviews body whose stars value is not an
integer in [1,5] is rejected before the handler runs, with the message
"Stars must be an integer from 1 to 5" among the collected errors; likewise a
missing or falsy review text is rejected; and a body with a non-empty review
string and an integer stars value strictly between 0 and 6 passes the rule
set. -/
theorem c5_stars_validation (b : ReviewBody) :
    (¬ (∃ n : ℤ, b.stars = .num (n : ℚ) ∧ 1 ≤ n ∧ n ≤ 5) →
      ("Stars must be an integer from 1 to 5" ∈ validateReviewCreation b ∧
       ∀ db u sid, postReview db u sid b =
         (.error (validationFailed (validateReviewCreation b)), db))) ∧
    (truthy b.review = false → "Review text is required" ∈ validateReviewCreation b) ∧
    (∀ s : String, b.review = .str s → s ≠ "" →
      (∃ n : ℤ, b.stars = .num (n : ℚ) ∧ 0 < n ∧ n < 6) →
      validateReviewCreation b = []) := by
  refine ⟨?_, ?_, ?_⟩
  · intro hno
    have hfail : starsRangeOk b.stars = false := by
      rw [Bool.eq_false_iff]
      intro htrue
      rcases (starsRangeOk_iff b.stars).mp htrue with ⟨n, hn, h0, h6⟩
      exact hno ⟨n, hn, by omega, by omega⟩
    have hmem : "Stars must be an integer from 1 to 5" ∈ validateReviewCreation b := by
      unfold validateReviewCreation
      rw [List.mem_append]
      right
      exact mem_chainErrors b.stars starsChecks
        (starsRangeOk, "Stars must be an integer from 1 to 5") (by simp [starsChecks]) hfail
    exact ⟨hmem, fun db u sid =>
      postReview_validation_error db u sid b (List.ne_nil_of_mem hmem)⟩
  · intro hfalsy
    unfold validateReviewCreation
    rw [List.mem_append]
    left
    exact mem_chainErrors b.review [(truthy, "Review text is required")]
      (truthy, "Review text is required") (by simp) hfalsy
  · rintro s hs hne ⟨n, hn, h0, h6⟩
    have hstars : starsRangeOk b.stars = true := (starsRangeOk_iff b.stars).mpr ⟨n, hn, h0, h6⟩
    have hnum : truthy b.stars = true := by
      rw [hn]
      simp only [truthy, decide_eq_true_eq]
      exact_mod_cast (by omega : n ≠ 0)
    have hrev : truthy b.review = true := by
      rw [hs]
      simp [truthy, hne]
    simp [validateReviewCreation, chainErrors, starsChecks, hrev, hnum, hstars]

/-- Witness for C5: a non-integer stars value (the string "3") is rejected
with the stars message; review "ok" with 4 stars passes the rule set. -/
theorem c5_stars_validation_witness :
    "Stars must be an integer from 1 to 5" ∈
      validateReviewCreation { review := .str "ok", stars := .str "3" } ∧
    validateReviewCreation { review := .str "ok", stars := .num 4 } = [] := by
  refine ⟨((c5_stars_validation { review := .str "ok", stars := .str "3" }).1 ?_).1,
    (c5_stars_validation { review := .str "ok", stars := .num 4 }).2.2 "ok" rfl
      (by decide) ⟨4, by norm_num⟩⟩
  rintro ⟨n, hn, -, -⟩
  exact Val.noConfusion hn

/-- Claim C6: a POST /spots body whose name is a string of 50 or more
characters is rejected before the handler runs, with "Name must be less than
50 characters" among the collected messages; a non-empty string name shorter
than 50 characters passes the name chain. -/
theorem c6_name_length (b : SpotBody) :
    (∀ s : String, b.name = .str s → 50 ≤ s.length →
      ("Name must be less than 50 characters" ∈ validateSpotCreation b ∧
       ∀ db u now, postSpot db u now b =
         (.error (validationFailed (validateSpotCreation b)), db))) ∧
    (∀ s : String, b.name = .str s → s ≠ "" → s.length < 50 →
      chainErrors b.name nameChecks = []) := by
  constructor
  · intro s hs hlen
    have hfail : nameLenOk b.name = false := by
      rw [hs]
      simp only [nameLenOk, jsLength, decide_eq_false_iff_not]
      omega
    have hmem : "Name must be less than 50 characters" ∈ validateSpotCreation b := by
      have h7 : "Name must be less than 50 characters" ∈ chainErrors b.name nameChecks :=
        mem_chainErrors b.name nameChecks
          (nameLenOk, "Name must be less than 50 characters") (by simp [nameChecks]) hfail
      unfold validateSpotCreation
      simp [List.mem_append, h7]
    exact ⟨hmem, fun db u now =>
      postSpot_validation_error db u now b (List.ne_nil_of_mem hmem)⟩
  · intro s hs hne hlen
    rw [hs]
    simp [chainErrors, nameChecks, truthy, nameLenOk, jsLength, hne, hlen]

/-- A 60-character name, over the 50-character bound. -/
def longName : String := "AAAAAAAAAAAAAAAAAAAAAAAAAAAAAAAAAAAAAAAAAAAAAAAAAAAAAAAAAAAA"

/-- `createBodyA` with the oversized name. -/
def longNameBody : SpotBody := { createBodyA with name := .str longName }

/-- Witness for C6: the 60-character name is rejected with the name message,
and the short name of `createBodyA` passes the name chain. -/
theorem c6_name_length_witness :
    "Name must be less than 50 characters" ∈ validateSpotCreation longNameBody ∧
    chainErrors createBodyA.name nameChecks = [] :=
  ⟨((c6_name_length longNameBody).1 longName rfl (by decide)).1,
   (c6_name_length createBodyA).2 "Hut" rfl (by decide) (by decide)⟩

/-- Claim C8: a successful PUT /spots/:spotId stores a row whose nine edit
fields come from the request body while its id, ownerId, previewImage and
createdAt are those of the loaded spot; the stored spot list replaces only
rows with the requested id; and the edit rule set never inspects
previewImage. -/
theorem c8_edit_fields (db : DB) (u sid now : Nat) (b : SpotBody) (spot : Spot)
    (hf : db.spots.find? (fun s => s.id == sid) = some spot)
    (hown : spot.id = u)
    (hv : validateSpotEdit b = []) :
    ∃ updated : Spot,
      putSpot db u sid now b =
        (.ok (200, updated),
         { db with spots := db.spots.map (fun s => if s.id == sid then updated else s) }) ∧
      updated.address = b.address ∧ updated.city = b.city ∧
      updated.state = b.state ∧ updated.country = b.country ∧
      updated.lat = b.lat ∧ updated.lng = b.lng ∧ updated.name = b.name ∧
      updated.description = b.description ∧ updated.price = b.price ∧
      updated.id = spot.id ∧ updated.ownerId = spot.ownerId ∧
      updated.previewImage = spot.previewImage ∧ updated.createdAt = spot.createdAt ∧
      (∀ v w : Val, validateSpotEdit { b with previewImage := v } =
        validateSpotEdit { b with previewImage := w }) := by
  refine ⟨{ spot with
      address := b.address, city := b.city, state := b.state,
      country := b.country, lat := b.lat, lng := b.lng, name := b.name,
      description := b.description, price := b.price, updatedAt := now },
    ?_, rfl, rfl, rfl, rfl, rfl, rfl, rfl, rfl, rfl, rfl, rfl, rfl, rfl,
    fun v w => rfl⟩
  unfold putSpot
  rw [hv]
  dsimp only
  rw [hf]
  dsimp only
  have hcond : (spot.id != u) = false := by simp [hown]
  rw [hcond]
  rfl

/-- Witness for C8: user 1 edits spot 1 of `dbA` (admitted by the route's own
check) with `editBodyA`, whose previewImage is absent. -/
theorem c8_edit_fields_witness :
    ∃ updated : Spot,
      putSpot dbA 1 1 7 editBodyA =
        (.ok (200, updated),
         { dbA with spots := dbA.spots.map (fun s => if s.id == 1 then updated else s) }) ∧
      updated.address = editBodyA.address ∧ updated.city = editBodyA.city ∧
      updated.state = editBodyA.state ∧ updated.country = editBodyA.country ∧
      updated.lat = editBodyA.lat ∧ updated.lng = editBodyA.lng ∧
      updated.name = editBodyA.name ∧
      updated.description = editBodyA.description ∧ updated.price = editBodyA.price ∧
      updated.id = spotA.id ∧ updated.ownerId = spotA.ownerId ∧
      updated.previewImage = spotA.previewImage ∧ updated.createdAt = spotA.createdAt ∧
      (∀ v w : Val, validateSpotEdit { editBodyA with previewImage := v } =
        validateSpotEdit { editBodyA with previewImage := w }) :=
  c8_edit_fields dbA 1 1 7 editBodyA spotA rfl rfl rfl

/-- When the rule set passes, the spot exists and no duplicate review is
found, POST review appends exactly one new review row and answers 200. -/
theorem postReview_success (db : DB) (u sid : Nat) (b : ReviewBody) (spot : Spot)
    (hb : validateReviewCreation b = [])
    (hf : db.spots.find? (fun s => s.id == sid) = some spot)
    (hno : db.reviews.find? (fun r => r.userId == u && r.spotId == spot.id) = none) :
    postReview db u sid b =
      (.ok (200, { id := db.nextReviewId, userId := u, spotId := sid,
                   review := b.review, stars := valNum b.stars }),
       { db with
         reviews := db.reviews ++ [{ id := db.nextReviewId, userId := u, spotId := sid, review := b.review, stars := valNum b.stars }],
         nextReviewId := db.nextReviewId + 1 }) := by
  unfold postReview
  rw [hb]
  dsimp only
  rw [hf]
  dsimp only
  rw [hno]

/-- When the rule set passes, the spot exists and a duplicate review is
found, POST review throws 403 and returns the store unchanged. -/
theorem postReview_duplicate (db : DB) (u sid : Nat) (b : ReviewBody) (spot : Spot)
    (r0 : Review)
    (hb : validateReviewCreation b = [])
    (hf : db.spots.find? (fun s => s.id == sid) = some spot)
    (hdup : db.reviews.find? (fun r => r.userId == u && r.spotId == spot.id) = some r0) :
    postReview db u sid b = (.error forbiddenDuplicate, db) := by
  unfold postReview
  rw [hb]
  dsimp only
  rw [hf]
  dsimp only
  rw [hdup]

/-- POST review preserves the one-review-per-(user, spot) invariant of the
store. -/
theorem postReview_atMostOne (db : DB) (u sid : Nat) (b : ReviewBody)
    (h : atMostOnePerPair db) : atMostOnePerPair (postReview db u sid b).2 := by
  unfold atMostOnePerPair postReview
  split
  · exact h
  · split
    · exact h
    · rename_i spot hfspot
      split
      · exact h
      · rename_i hfr
        have hsid : spot.id = sid := by simpa using List.find?_some hfspot
        intro r1 h1 r2 h2 hu hs
        have hnone : ∀ r ∈ db.reviews, ¬(r.userId = u ∧ r.spotId = sid) := by
          intro r hr hcontra
          have hnp := List.find?_eq_none.mp hfr r hr
          rw [hsid] at hnp
          simp [hcontra.1, hcontra.2] at hnp
        simp only [List.mem_append, List.mem_singleton] at h1 h2
        rcases h1 with h1 | h1 <;> rcases h2 with h2 | h2
        · exact h r1 h1 r2 h2 hu hs
        · exfalso
          apply hnone r1 h1
          subst h2
          exact ⟨hu, hs⟩
        · exfalso
          apply hnone r2 h2
          subst h1
          exact ⟨hu.symm, hs.symm⟩
        · rw [h1, h2]

/-- Claim C2: sequentially, the first valid review POST by user u for an
existing spot s (no prior review by u for s) succeeds with 200 and stores a
review tied to u and s; the immediately following POST by the same u for the
same s throws 403 "User already has a review for this spot" and changes
nothing; and the route preserves the at-most-one-review-per-(user, spot)
invariant of the store. -/
theorem c2_review_uniqueness (db : DB) (u sid : Nat) (b b2 : ReviewBody) (spot : Spot)
    (hf : db.spots.find? (fun s => s.id == sid) = some spot)
    (hno : db.reviews.find? (fun r => r.userId == u && r.spotId == sid) = none)
    (hb : validateReviewCreation b = [])
    (hb2 : validateReviewCreation b2 = []) :
    ∃ r db1,
      postReview db u sid b = (.ok (200, r), db1) ∧
      r.userId = u ∧ r.spotId = sid ∧ r ∈ db1.reviews ∧
      postReview db1 u sid b2 = (.error forbiddenDuplicate, db1) ∧
      (atMostOnePerPair db → atMostOnePerPair db1) := by
  have hsid : spot.id = sid := by simpa using List.find?_some hf
  subst hsid
  have heq := postReview_success db u spot.id b spot hb hf hno
  refine ⟨_, _, heq, rfl, rfl, by simp, ?_, ?_⟩
  · refine postReview_duplicate _ u spot.id b2 spot
      { id := db.nextReviewId, userId := u, spotId := spot.id,
        review := b.review, stars := valNum b.stars } hb2 hf ?_
    show (db.reviews ++ [_]).find? _ = some _
    rw [List.find?_append, hno]
    simp
  · intro hinv
    have hpres := postReview_atMostOne db u spot.id b hinv
    rw [heq] at hpres
    exact hpres

/-- Witness for C2: user 7 reviews spot 1 of `dbA` twice with a valid body;
the first call succeeds, the second throws 403. -/
theorem c2_review_uniqueness_witness :
    ∃ r db1,
      postReview dbA 7 1 { review := .str "Nice", stars := .num 5 } = (.ok (200, r), db1) ∧
      r.userId = 7 ∧ r.spotId = 1 ∧ r ∈ db1.reviews ∧
      postReview db1 7 1 { review := .str "Nice", stars := .num 5 } =
        (.error forbiddenDuplicate, db1) ∧
      (atMostOnePerPair dbA → atMostOnePerPair db1) :=
  c2_review_uniqueness dbA 7 1 { review := .str "Nice", stars := .num 5 }
    { review := .str "Nice", stars := .num 5 } spotA rfl rfl rfl rfl
